import Mathlib

/-!
A shallow embedding of `src/electionguard/key_ceremony_mediator.py`: the
`KeyCeremonyMediator` class, its round-gating predicates and its
receive/share operations.

Modelling conventions:
* Python dicts are insertion-ordered association lists (`List (K × V)`);
  `d[k] = v` is `dictInsert` (update in place keeps the original position,
  a new key is appended), `d[k]` is `dictGet` and a missing key — Python's
  `KeyError` — is modelled with `Except Unit`.
* The collaborator functions `combine_election_public_keys` and
  `verify_election_partial_key_challenge` are imported from
  `key_ceremony.py`, which is not part of the repository slice; they are
  passed as explicit function parameters, so every theorem quantifies over
  them.
* The payload record types come from `key_ceremony.py` as well and are
  modelled from the spec's data-model table; the mediator only ever reads
  their `owner_id`/`designated_id`/`verified` fields.
* Python's `is not` in `share_announced`'s filter compares object
  identity, which a value-level embedding cannot compute: a string is
  never `None`, and strings of different values are always different
  objects, but two strings of equal value may or may not be the same
  object (aliasing/interning).  `share_announced` therefore takes the
  identity outcome as an explicit function parameter; an oracle is
  admissible (describes a possible Python execution) when it satisfies
  `PyIsNotOracle`.
-/

namespace ElectionGuard

/-- `GUARDIAN_ID` from `type.py`: a string identifier. -/
abbrev GUARDIAN_ID := String

/-- `MEDIATOR_ID` from `type.py`: a string identifier. -/
abbrev MEDIATOR_ID := String

/-- `GuardianPair`: ordered pair of guardians involved in sharing. -/
structure GuardianPair where
  owner_id : GUARDIAN_ID
  designated_id : GUARDIAN_ID
deriving DecidableEq

/-- Modelled from the spec: `CeremonyDetails` (defined in `key_ceremony.py`,
outside the slice) carries `number_of_guardians` (N) and the quorum. -/
structure CeremonyDetails where
  number_of_guardians : Nat
  quorum : Nat
deriving DecidableEq

/-- Modelled from the spec: `AuxiliaryPublicKey` (from `key_ceremony.py`):
`owner_id` plus abstract key material. -/
structure AuxiliaryPublicKey where
  owner_id : GUARDIAN_ID
  key_material : Nat
deriving DecidableEq

/-- Modelled from the spec: `ElectionPublicKey` (from `key_ceremony.py`):
`owner_id`, abstract key material and coefficient commitments. -/
structure ElectionPublicKey where
  owner_id : GUARDIAN_ID
  key_material : Nat
  coefficient_commitments : List Nat
deriving DecidableEq

/-- Modelled from the spec: `PublicKeySet` bundles a guardian's election and
auxiliary public keys for announcement. -/
structure PublicKeySet where
  election : ElectionPublicKey
  auxiliary : AuxiliaryPublicKey
deriving DecidableEq

/-- Modelled from the spec: `ElectionPartialKeyBackup` (from
`key_ceremony.py`): an encrypted share from `owner_id` addressed to
`designated_id`. -/
structure ElectionPartialKeyBackup where
  owner_id : GUARDIAN_ID
  designated_id : GUARDIAN_ID
  encrypted_value : Nat
deriving DecidableEq

/-- Modelled from the spec: `ElectionPartialKeyVerification` (from
`key_ceremony.py`): `designated_id`'s attestation about `owner_id`'s backup. -/
structure ElectionPartialKeyVerification where
  owner_id : GUARDIAN_ID
  designated_id : GUARDIAN_ID
  verified : Bool
deriving DecidableEq

/-- Modelled from the spec: `ElectionPartialKeyChallenge` (from
`key_ceremony.py`): a disclosure used to resolve a failed verification. -/
structure ElectionPartialKeyChallenge where
  owner_id : GUARDIAN_ID
  designated_id : GUARDIAN_ID
  value : Nat
deriving DecidableEq

/-- Modelled from the spec: `ElectionJointKey` is an abstract combined group
element. -/
abbrev ElectionJointKey := Nat

/-- `BackupVerificationState`: the state of the verifications of all guardian
election partial key backups. -/
structure BackupVerificationState where
  all_sent : Bool
  all_verified : Bool
  failed_verifications : List GuardianPair
deriving DecidableEq

/-- `BackupVerificationState()` with the source's default field values. -/
def BackupVerificationState.initial : BackupVerificationState :=
  BackupVerificationState.mk false false []

/-- Python `d[k] = v` on an insertion-ordered dict: an existing key keeps its
position and gets the new value, a new key is appended at the end. -/
def dictInsert {K V : Type} [DecidableEq K] (k : K) (v : V) :
    List (K × V) → List (K × V)
  | [] => [(k, v)]
  | p :: rest => if p.1 = k then (k, v) :: rest else p :: dictInsert k v rest

/-- Python `d.get(k)` / the test behind `d[k]`: the value at the first
occurrence of `k`, if any. -/
def dictGet {K V : Type} [DecidableEq K] (k : K) :
    List (K × V) → Option V
  | [] => none
  | p :: rest => if p.1 = k then some p.2 else dictGet k rest

/-- The mediator's mutable state: `id`, `ceremony_details` and the five maps
initialised in `KeyCeremonyMediator.__init__`. -/
structure KeyCeremonyMediator where
  id : MEDIATOR_ID
  ceremony_details : CeremonyDetails
  auxiliary_public_keys : List (GUARDIAN_ID × AuxiliaryPublicKey)
  election_public_keys : List (GUARDIAN_ID × ElectionPublicKey)
  election_partial_key_backups : List (GuardianPair × ElectionPartialKeyBackup)
  election_partial_key_verifications :
    List (GuardianPair × ElectionPartialKeyVerification)
  election_partial_key_challenges :
    List (GuardianPair × ElectionPartialKeyChallenge)
deriving DecidableEq

/-- `KeyCeremonyMediator.__init__`: all five maps start empty. -/
def KeyCeremonyMediator.init (id : MEDIATOR_ID) (cd : CeremonyDetails) :
    KeyCeremonyMediator :=
  KeyCeremonyMediator.mk id cd [] [] [] [] []

/-- `_receive_auxiliary_public_key`: store keyed by the key's own `owner_id`. -/
def KeyCeremonyMediator.receive_auxiliary_public_key
    (st : KeyCeremonyMediator) (pk : AuxiliaryPublicKey) : KeyCeremonyMediator :=
  { st with auxiliary_public_keys := dictInsert pk.owner_id pk st.auxiliary_public_keys }

/-- `_receive_election_public_key`: store keyed by the key's own `owner_id`. -/
def KeyCeremonyMediator.receive_election_public_key
    (st : KeyCeremonyMediator) (pk : ElectionPublicKey) : KeyCeremonyMediator :=
  { st with election_public_keys := dictInsert pk.owner_id pk st.election_public_keys }

/-- `announce`: record the election key, then the auxiliary key. -/
def KeyCeremonyMediator.announce (st : KeyCeremonyMediator)
    (public_key_set : PublicKeySet) : KeyCeremonyMediator :=
  (st.receive_election_public_key public_key_set.election).receive_auxiliary_public_key
    public_key_set.auxiliary

/-- `_all_auxiliary_public_keys_available`: exactly N auxiliary keys stored. -/
def KeyCeremonyMediator.all_auxiliary_public_keys_available
    (st : KeyCeremonyMediator) : Bool :=
  st.auxiliary_public_keys.length == st.ceremony_details.number_of_guardians

/-- `_all_election_public_keys_available`: exactly N election keys stored. -/
def KeyCeremonyMediator.all_election_public_keys_available
    (st : KeyCeremonyMediator) : Bool :=
  st.election_public_keys.length == st.ceremony_details.number_of_guardians

/-- `all_guardians_announced`. -/
def KeyCeremonyMediator.all_guardians_announced (st : KeyCeremonyMediator) : Bool :=
  st.all_auxiliary_public_keys_available && st.all_election_public_keys_available

/-- `_get_announced_guardians`: the election-public-key map's keys, in
insertion order. -/
def KeyCeremonyMediator.get_announced_guardians
    (st : KeyCeremonyMediator) : List GUARDIAN_ID :=
  st.election_public_keys.map Prod.fst

/-- Admissibility of an oracle `isNot` for Python's
`guardian_id is not requesting_guardian_id` (object identity between the
stored id string object and the requester argument): a string object is
never `None`, and strings of different values are always different
objects; for strings of equal value the outcome depends on
aliasing/interning, so it is left free. -/
def PyIsNotOracle (isNot : GUARDIAN_ID → Option GUARDIAN_ID → Bool) : Prop :=
  (∀ a, isNot a none = true) ∧ (∀ a r, a ≠ r → isNot a (some r) = true)

/-- The loop of `share_announced`: iterate the election-key map in insertion
order (each entry's value is `self._election_public_keys[guardian_id]` for
that entry's key, the dict's keys being unique); `isNot p.1 req` is the
outcome of the `is not` identity test for the current stored id object;
the subscript `self._auxiliary_public_keys[guardian_id]` raises `KeyError`
when the id is missing, modelled by `Except.error`. -/
def share_announced_loop (aux : List (GUARDIAN_ID × AuxiliaryPublicKey))
    (req : Option GUARDIAN_ID) (isNot : GUARDIAN_ID → Option GUARDIAN_ID → Bool) :
    List (GUARDIAN_ID × ElectionPublicKey) → Except Unit (List PublicKeySet)
  | [] => Except.ok []
  | p :: rest =>
    if isNot p.1 req then
      match dictGet p.1 aux with
      | none => Except.error ()
      | some apk =>
        match share_announced_loop aux req isNot rest with
        | Except.error e => Except.error e
        | Except.ok tail => Except.ok (PublicKeySet.mk p.2 apk :: tail)
    else share_announced_loop aux req isNot rest

/-- `share_announced`: `None` unless all guardians announced, else the loop.
`isNot` carries the object-identity outcomes of the `is not` filter. -/
def KeyCeremonyMediator.share_announced (st : KeyCeremonyMediator)
    (req : Option GUARDIAN_ID) (isNot : GUARDIAN_ID → Option GUARDIAN_ID → Bool) :
    Except Unit (Option (List PublicKeySet)) :=
  if !st.all_guardians_announced then Except.ok none
  else
    match share_announced_loop st.auxiliary_public_keys req isNot
        st.election_public_keys with
    | Except.error e => Except.error e
    | Except.ok l => Except.ok (some l)

/-- `_receive_election_partial_key_backup`: a self-pair is silently dropped,
otherwise stored at `GuardianPair(owner_id, designated_id)`. -/
def KeyCeremonyMediator.receive_election_partial_key_backup
    (st : KeyCeremonyMediator) (backup : ElectionPartialKeyBackup) :
    KeyCeremonyMediator :=
  if backup.owner_id = backup.designated_id then st
  else
    let m := dictInsert (GuardianPair.mk backup.owner_id backup.designated_id) backup st.election_partial_key_backups
    { st with election_partial_key_backups := m }

/-- `receive_backups`: a silent no-op unless round 1 is complete. -/
def KeyCeremonyMediator.receive_backups (st : KeyCeremonyMediator)
    (backups : List ElectionPartialKeyBackup) : KeyCeremonyMediator :=
  if !st.all_guardians_announced then st
  else backups.foldl KeyCeremonyMediator.receive_election_partial_key_backup st

/-- `_all_election_partial_key_backups_available`: exactly (N−1)×N backups. -/
def KeyCeremonyMediator.all_election_partial_key_backups_available
    (st : KeyCeremonyMediator) : Bool :=
  st.election_partial_key_backups.length ==
    (st.ceremony_details.number_of_guardians - 1) *
      st.ceremony_details.number_of_guardians

/-- `all_backups_available`. -/
def KeyCeremonyMediator.all_backups_available (st : KeyCeremonyMediator) : Bool :=
  st.all_guardians_announced && st.all_election_partial_key_backups_available

/-- The loop of `_share_election_partial_key_backups_to_guardian`: for each
announced guardian other than the requester, the source subscripts
`self._election_partial_key_backups[GuardianPair(current, guardian_id)]`,
which raises `KeyError` for an absent pair (`Except.error` here); the
subsequent `if backup is not None` is then always true, so a found backup
is always appended. -/
def share_backups_loop (bmap : List (GuardianPair × ElectionPartialKeyBackup))
    (g : GUARDIAN_ID) : List GUARDIAN_ID → Except Unit (List ElectionPartialKeyBackup)
  | [] => Except.ok []
  | cur :: rest =>
    if g ≠ cur then
      match dictGet (GuardianPair.mk cur g) bmap with
      | none => Except.error ()
      | some b =>
        match share_backups_loop bmap g rest with
        | Except.error e => Except.error e
        | Except.ok tail => Except.ok (b :: tail)
    else share_backups_loop bmap g rest

/-- `_share_election_partial_key_backups_to_guardian`. -/
def KeyCeremonyMediator.share_election_partial_key_backups_to_guardian
    (st : KeyCeremonyMediator) (g : GUARDIAN_ID) :
    Except Unit (List ElectionPartialKeyBackup) :=
  share_backups_loop st.election_partial_key_backups g st.get_announced_guardians

/-- `share_backups`: the source's guard is
`not self.all_guardians_announced() or not self.all_backups_available` —
the second operand is the bound method object, which is always truthy, so
`not self.all_backups_available` is always false and the guard reduces to
the round-1 check alone.  `if not requesting_guardian_id` is Python
falsiness: `None` or the empty string. -/
def KeyCeremonyMediator.share_backups (st : KeyCeremonyMediator)
    (req : Option GUARDIAN_ID) :
    Except Unit (Option (List ElectionPartialKeyBackup)) :=
  if !st.all_guardians_announced then Except.ok none
  else
    match req with
    | none => Except.ok (some (st.election_partial_key_backups.map Prod.snd))
    | some g =>
      if g = "" then Except.ok (some (st.election_partial_key_backups.map Prod.snd))
      else
        match st.share_election_partial_key_backups_to_guardian g with
        | Except.error e => Except.error e
        | Except.ok l => Except.ok (some l)

/-- `_receive_election_partial_key_verification`: a self-pair is silently
dropped, otherwise stored at `GuardianPair(owner_id, designated_id)`. -/
def KeyCeremonyMediator.receive_election_partial_key_verification
    (st : KeyCeremonyMediator) (verification : ElectionPartialKeyVerification) :
    KeyCeremonyMediator :=
  if verification.owner_id = verification.designated_id then st
  else
    let m := dictInsert (GuardianPair.mk verification.owner_id verification.designated_id) verification st.election_partial_key_verifications
    { st with election_partial_key_verifications := m }

/-- `receive_backup_verifications`: a silent no-op unless all backups are
available. -/
def KeyCeremonyMediator.receive_backup_verifications (st : KeyCeremonyMediator)
    (verifications : List ElectionPartialKeyVerification) : KeyCeremonyMediator :=
  if !st.all_backups_available then st
  else
    verifications.foldl KeyCeremonyMediator.receive_election_partial_key_verification st

/-- `_all_election_partial_key_verifications_received`: exactly (N−1)×N. -/
def KeyCeremonyMediator.all_election_partial_key_verifications_received
    (st : KeyCeremonyMediator) : Bool :=
  st.election_partial_key_verifications.length ==
    (st.ceremony_details.number_of_guardians - 1) *
      st.ceremony_details.number_of_guardians

/-- `_check_verification_of_election_partial_key_backups`: collect the pairs
of the stored verifications whose `verified` is false, in storage
iteration order. -/
def KeyCeremonyMediator.check_verification_of_election_partial_key_backups
    (st : KeyCeremonyMediator) : BackupVerificationState :=
  if !st.all_election_partial_key_verifications_received then
    BackupVerificationState.initial
  else
    let failed := (st.election_partial_key_verifications.map Prod.snd).filterMap
      (fun v =>
        if v.verified then none
        else some (GuardianPair.mk v.owner_id v.designated_id))
    BackupVerificationState.mk true (failed.length == 0) failed

/-- `get_verification_state`. -/
def KeyCeremonyMediator.get_verification_state
    (st : KeyCeremonyMediator) : BackupVerificationState :=
  if !st.all_backups_available ||
      !st.all_election_partial_key_verifications_received then
    BackupVerificationState.initial
  else st.check_verification_of_election_partial_key_backups

/-- `all_backups_verified`. -/
def KeyCeremonyMediator.all_backups_verified (st : KeyCeremonyMediator) : Bool :=
  st.get_verification_state.all_verified

/-- `verify_challenge`: `vf` stands for the external collaborator
`verify_election_partial_key_challenge`; a positive result is routed into
the verification store, and the fresh verification is always returned. -/
def verify_challenge
    (vf : MEDIATOR_ID → ElectionPartialKeyChallenge → ElectionPartialKeyVerification)
    (st : KeyCeremonyMediator) (challenge : ElectionPartialKeyChallenge) :
    ElectionPartialKeyVerification × KeyCeremonyMediator :=
  let verification := vf st.id challenge
  if verification.verified then
    (verification, st.receive_election_partial_key_verification verification)
  else (verification, st)

/-- `publish_joint_key`: `combine` stands for the external collaborator
`combine_election_public_keys`, applied to the stored election public keys
in map iteration order. -/
def publish_joint_key (combine : List ElectionPublicKey → ElectionJointKey)
    (st : KeyCeremonyMediator) : Option ElectionJointKey :=
  if !st.all_backups_verified then none
  else some (combine (st.election_public_keys.map Prod.snd))

/-- `reset`: replace the ceremony details and clear all five maps. -/
def KeyCeremonyMediator.reset (st : KeyCeremonyMediator)
    (ceremony_details : CeremonyDetails) : KeyCeremonyMediator :=
  KeyCeremonyMediator.mk st.id ceremony_details [] [] [] [] []

/-- One mutating call on the mediator (the query operations do not change
state and need no constructor). -/
inductive MediatorOp where
  | announce (pks : PublicKeySet)
  | receive_backups (backups : List ElectionPartialKeyBackup)
  | receive_backup_verifications (verifications : List ElectionPartialKeyVerification)
  | verify_challenge (challenge : ElectionPartialKeyChallenge)
  | reset (cd : CeremonyDetails)

/-- The state change of one mediator operation, `vf` being the external
challenge-verification collaborator. -/
def apply_op
    (vf : MEDIATOR_ID → ElectionPartialKeyChallenge → ElectionPartialKeyVerification)
    (st : KeyCeremonyMediator) : MediatorOp → KeyCeremonyMediator
  | MediatorOp.announce pks => st.announce pks
  | MediatorOp.receive_backups bs => st.receive_backups bs
  | MediatorOp.receive_backup_verifications vs => st.receive_backup_verifications vs
  | MediatorOp.verify_challenge ch => (verify_challenge vf st ch).2
  | MediatorOp.reset cd => st.reset cd

/-- Run a sequence of mediator operations from a state. -/
def run
    (vf : MEDIATOR_ID → ElectionPartialKeyChallenge → ElectionPartialKeyVerification)
    (st : KeyCeremonyMediator) (ops : List MediatorOp) : KeyCeremonyMediator :=
  ops.foldl (apply_op vf) st

/-- No key of the backup map or of the verification map is a self-pair. -/
def NoSelfPairs (st : KeyCeremonyMediator) : Prop :=
  (∀ p ∈ st.election_partial_key_backups, p.1.owner_id ≠ p.1.designated_id) ∧
  (∀ p ∈ st.election_partial_key_verifications, p.1.owner_id ≠ p.1.designated_id)

/-! ### Concrete fixtures used by witnesses and counterexamples -/

/-- Guardian A's auxiliary key. -/
def auxA : AuxiliaryPublicKey := AuxiliaryPublicKey.mk "A" 1

/-- Guardian B's auxiliary key. -/
def auxB : AuxiliaryPublicKey := AuxiliaryPublicKey.mk "B" 2

/-- Guardian A's election key. -/
def epkA : ElectionPublicKey := ElectionPublicKey.mk "A" 11 [3]

/-- Guardian B's election key. -/
def epkB : ElectionPublicKey := ElectionPublicKey.mk "B" 12 [4]

/-- A two-guardian ceremony's details. -/
def cd2 : CeremonyDetails := CeremonyDetails.mk 2 2

/-- A one-guardian ceremony's details. -/
def cd1 : CeremonyDetails := CeremonyDetails.mk 1 1

/-- A mediator for two guardians with both guardians announced. -/
def stAnnounced2 : KeyCeremonyMediator :=
  KeyCeremonyMediator.mk "M" cd2 [("A", auxA), ("B", auxB)] [("A", epkA), ("B", epkB)] [] [] []

/-- Backup from A addressed to B. -/
def bAB : ElectionPartialKeyBackup := ElectionPartialKeyBackup.mk "A" "B" 21

/-- Backup from B addressed to A. -/
def bBA : ElectionPartialKeyBackup := ElectionPartialKeyBackup.mk "B" "A" 22

/-- The two-guardian mediator with the full set of 2×1 backups. -/
def stBackups2 : KeyCeremonyMediator :=
  KeyCeremonyMediator.mk "M" cd2 [("A", auxA), ("B", auxB)] [("A", epkA), ("B", epkB)]
    [(GuardianPair.mk "A" "B", bAB), (GuardianPair.mk "B" "A", bBA)] [] []

/-- A verification of A's backup by B, positive. -/
def vAB : ElectionPartialKeyVerification := ElectionPartialKeyVerification.mk "A" "B" true

/-- A verification of B's backup by A, negative. -/
def vBAf : ElectionPartialKeyVerification := ElectionPartialKeyVerification.mk "B" "A" false

/-- The two-guardian mediator with full backups and a complete verification
set in which the (B,A) verification failed. -/
def stVerifMixed : KeyCeremonyMediator :=
  KeyCeremonyMediator.mk "M" cd2 [("A", auxA), ("B", auxB)] [("A", epkA), ("B", epkB)]
    [(GuardianPair.mk "A" "B", bAB), (GuardianPair.mk "B" "A", bBA)]
    [(GuardianPair.mk "A" "B", vAB), (GuardianPair.mk "B" "A", vBAf)] []

/-- A one-guardian mediator that has announced; the empty backup and
verification sets are complete (1×0 = 0), so the ceremony is finished. -/
def stVerified1 : KeyCeremonyMediator :=
  KeyCeremonyMediator.mk "M" cd1 [("A", auxA)] [("A", epkA)] [] [] []

/-- A challenge-verification collaborator that accepts every challenge,
reporting the challenge's own pair. -/
def vfAccept : MEDIATOR_ID → ElectionPartialKeyChallenge → ElectionPartialKeyVerification :=
  fun _ ch => ElectionPartialKeyVerification.mk ch.owner_id ch.designated_id true

/-- A self-pair challenge. -/
def chAA : ElectionPartialKeyChallenge := ElectionPartialKeyChallenge.mk "A" "A" 0

/-- Identity oracle for the execution in which the requester id aliases the
stored id string object whenever the values are equal (the
interned-literal case, as in the repository's own usage): `is not` then
coincides with value inequality. -/
def isNotAliased : GUARDIAN_ID → Option GUARDIAN_ID → Bool :=
  fun a r =>
    match r with
    | none => true
    | some b => a != b

/-- Identity oracle for the execution in which the requester id is an
equal-but-distinct string object (e.g. built at runtime), so it is a
different object from every stored id: `is not` is true throughout. -/
def isNotFresh : GUARDIAN_ID → Option GUARDIAN_ID → Bool :=
  fun _ _ => true

/-! ### Helper lemmas about the dict model -/

/-- An entry of `dictInsert k v l` is the inserted entry or an entry of `l`. -/
theorem mem_dictInsert {K V : Type} [DecidableEq K] (k : K) (v : V)
    (l : List (K × V)) (q : K × V) :
    q ∈ dictInsert k v l → q = (k, v) ∨ q ∈ l := by
  induction l with
  | nil =>
    intro hq
    simp [dictInsert] at hq
    exact Or.inl hq
  | cons p rest ih =>
    intro hq
    rw [dictInsert] at hq
    by_cases h : p.1 = k
    · rw [if_pos h] at hq
      rcases List.mem_cons.mp hq with h1 | h1
      · exact Or.inl h1
      · exact Or.inr (List.mem_cons_of_mem _ h1)
    · rw [if_neg h] at hq
      rcases List.mem_cons.mp hq with h1 | h1
      · exact Or.inr (h1 ▸ List.mem_cons_self _ _)
      · rcases ih h1 with h2 | h2
        · exact Or.inl h2
        · exact Or.inr (List.mem_cons_of_mem _ h2)

/-- Inserting at an absent key grows the dict by one entry. -/
theorem dictInsert_length_of_absent {K V : Type} [DecidableEq K] (k : K) (v : V)
    (l : List (K × V)) :
    dictGet k l = none → (dictInsert k v l).length = l.length + 1 := by
  induction l with
  | nil => intro _; rfl
  | cons p rest ih =>
    intro h
    rw [dictGet] at h
    by_cases hp : p.1 = k
    · rw [if_pos hp] at h
      exact absurd h (by simp)
    · rw [if_neg hp] at h
      rw [dictInsert, if_neg hp]
      simp [ih h]

/-- Inserting at a present key keeps the dict's size. -/
theorem dictInsert_length_of_present {K V : Type} [DecidableEq K] (k : K) (v : V)
    (l : List (K × V)) :
    dictGet k l ≠ none → (dictInsert k v l).length = l.length := by
  induction l with
  | nil => intro h; exact absurd rfl h
  | cons p rest ih =>
    intro h
    rw [dictGet] at h
    by_cases hp : p.1 = k
    · rw [dictInsert, if_pos hp]
      rfl
    · rw [if_neg hp] at h
      rw [dictInsert, if_neg hp]
      simp [ih h]

/-- With duplicate-free keys, inserting a value satisfying `P` into a dict
whose other entries satisfy `P` gives a dict whose values all satisfy `P`. -/
theorem dictInsert_values_all {K V : Type} [DecidableEq K] (k : K) (v : V)
    (P : V → Prop) (l : List (K × V)) :
    (l.map Prod.fst).Nodup → P v → (∀ p ∈ l, p.1 ≠ k → P p.2) →
    ∀ q ∈ dictInsert k v l, P q.2 := by
  induction l with
  | nil =>
    intro _ hv _ q hq
    simp [dictInsert] at hq
    rw [hq]
    exact hv
  | cons p rest ih =>
    intro hnd hv hP q hq
    rw [dictInsert] at hq
    by_cases hp : p.1 = k
    · rw [if_pos hp] at hq
      rcases List.mem_cons.mp hq with h1 | h1
      · rw [h1]; exact hv
      · refine hP q (List.mem_cons_of_mem _ h1) ?_
        intro hk
        have : p.1 ∈ rest.map Prod.fst := by
          rw [hp, ← hk]
          exact List.mem_map_of_mem Prod.fst h1
        exact (List.nodup_cons.mp (by simpa using hnd)).1 this
    · rw [if_neg hp] at hq
      rcases List.mem_cons.mp hq with h1 | h1
      · rw [h1]; exact hP p (List.mem_cons_self _ _) hp
      · exact ih (List.nodup_cons.mp (by simpa using hnd)).2 hv
          (fun r hr hk => hP r (List.mem_cons_of_mem _ hr) hk) q h1

/-! ### Preservation of the no-self-pair invariant -/

/-- Receiving one backup preserves `NoSelfPairs`. -/
theorem noSelfPairs_receive_backup (st : KeyCeremonyMediator)
    (b : ElectionPartialKeyBackup) (h : NoSelfPairs st) :
    NoSelfPairs (st.receive_election_partial_key_backup b) := by
  rw [KeyCeremonyMediator.receive_election_partial_key_backup]
  by_cases hb : b.owner_id = b.designated_id
  · rw [if_pos hb]; exact h
  · rw [if_neg hb]
    refine ⟨?_, h.2⟩
    intro p hp
    rcases mem_dictInsert _ _ _ _ hp with h1 | h1
    · rw [h1]; exact hb
    · exact h.1 p h1

/-- Receiving one verification preserves `NoSelfPairs`. -/
theorem noSelfPairs_receive_verification (st : KeyCeremonyMediator)
    (v : ElectionPartialKeyVerification) (h : NoSelfPairs st) :
    NoSelfPairs (st.receive_election_partial_key_verification v) := by
  rw [KeyCeremonyMediator.receive_election_partial_key_verification]
  by_cases hv : v.owner_id = v.designated_id
  · rw [if_pos hv]; exact h
  · rw [if_neg hv]
    refine ⟨h.1, ?_⟩
    intro p hp
    rcases mem_dictInsert _ _ _ _ hp with h1 | h1
    · rw [h1]; exact hv
    · exact h.2 p h1

/-- Folding backup receipts preserves `NoSelfPairs`. -/
theorem noSelfPairs_foldl_backups (l : List ElectionPartialKeyBackup) :
    ∀ st : KeyCeremonyMediator, NoSelfPairs st →
      NoSelfPairs (l.foldl KeyCeremonyMediator.receive_election_partial_key_backup st) := by
  induction l with
  | nil => intro st h; exact h
  | cons b rest ih => intro st h; exact ih _ (noSelfPairs_receive_backup st b h)

/-- Folding verification receipts preserves `NoSelfPairs`. -/
theorem noSelfPairs_foldl_verifications (l : List ElectionPartialKeyVerification) :
    ∀ st : KeyCeremonyMediator, NoSelfPairs st →
      NoSelfPairs
        (l.foldl KeyCeremonyMediator.receive_election_partial_key_verification st) := by
  induction l with
  | nil => intro st h; exact h
  | cons v rest ih => intro st h; exact ih _ (noSelfPairs_receive_verification st v h)

/-- Every mediator operation preserves `NoSelfPairs`. -/
theorem noSelfPairs_apply_op
    (vf : MEDIATOR_ID → ElectionPartialKeyChallenge → ElectionPartialKeyVerification)
    (st : KeyCeremonyMediator) (op : MediatorOp) (h : NoSelfPairs st) :
    NoSelfPairs (apply_op vf st op) := by
  cases op with
  | announce pks => exact h
  | receive_backups bs =>
    show NoSelfPairs (st.receive_backups bs)
    rw [KeyCeremonyMediator.receive_backups]
    by_cases ha : st.all_guardians_announced
    · rw [if_neg (by simp [ha])]
      exact noSelfPairs_foldl_backups bs st h
    · rw [if_pos (by simpa using ha)]
      exact h
  | receive_backup_verifications vs =>
    show NoSelfPairs (st.receive_backup_verifications vs)
    rw [KeyCeremonyMediator.receive_backup_verifications]
    by_cases ha : st.all_backups_available
    · rw [if_neg (by simp [ha])]
      exact noSelfPairs_foldl_verifications vs st h
    · rw [if_pos (by simpa using ha)]
      exact h
  | verify_challenge ch =>
    show NoSelfPairs (verify_challenge vf st ch).2
    rw [verify_challenge]
    by_cases hv : (vf st.id ch).verified
    · rw [if_pos (by simpa using hv)]
      exact noSelfPairs_receive_verification st _ h
    · rw [if_neg (by simpa using hv)]
      exact h
  | reset cd =>
    exact ⟨fun p hp => absurd hp (List.not_mem_nil p),
      fun p hp => absurd hp (List.not_mem_nil p)⟩

/-- Running any operation sequence preserves `NoSelfPairs`. -/
theorem noSelfPairs_run
    (vf : MEDIATOR_ID → ElectionPartialKeyChallenge → ElectionPartialKeyVerification)
    (ops : List MediatorOp) :
    ∀ st : KeyCeremonyMediator, NoSelfPairs st → NoSelfPairs (run vf st ops) := by
  induction ops with
  | nil => intro st h; exact h
  | cons op rest ih => intro st h; exact ih _ (noSelfPairs_apply_op vf st op h)

/-! ### The claims -/

/-- Claim C7: after any sequence of mediator operations from a fresh
mediator, no key of the backup map or of the verification map is a
self-pair; and submitting a backup or verification whose `owner_id` equals
its `designated_id` leaves the whole mediator state unchanged (so it has no
observable effect on any map size or completeness predicate). -/
theorem claim_C7 :
    (∀ (mid : MEDIATOR_ID) (cd : CeremonyDetails)
      (vf : MEDIATOR_ID → ElectionPartialKeyChallenge → ElectionPartialKeyVerification)
      (ops : List MediatorOp),
        NoSelfPairs (run vf (KeyCeremonyMediator.init mid cd) ops)) ∧
    (∀ (st : KeyCeremonyMediator) (b : ElectionPartialKeyBackup),
      b.owner_id = b.designated_id → st.receive_backups [b] = st) ∧
    (∀ (st : KeyCeremonyMediator) (v : ElectionPartialKeyVerification),
      v.owner_id = v.designated_id → st.receive_backup_verifications [v] = st) := by
  refine ⟨?_, ?_, ?_⟩
  · intro mid cd vf ops
    refine noSelfPairs_run vf ops _ ⟨?_, ?_⟩
    · intro p hp; exact absurd hp (List.not_mem_nil p)
    · intro p hp; exact absurd hp (List.not_mem_nil p)
  · intro st b hb
    rw [KeyCeremonyMediator.receive_backups]
    by_cases ha : st.all_guardians_announced
    · rw [if_neg (by simp [ha])]
      show st.receive_election_partial_key_backup b = st
      rw [KeyCeremonyMediator.receive_election_partial_key_backup, if_pos hb]
    · rw [if_pos (by simpa using ha)]
  · intro st v hv
    rw [KeyCeremonyMediator.receive_backup_verifications]
    by_cases ha : st.all_backups_available
    · rw [if_neg (by simp [ha])]
      show st.receive_election_partial_key_verification v = st
      rw [KeyCeremonyMediator.receive_election_partial_key_verification, if_pos hv]
    · rw [if_pos (by simpa using ha)]

/-- Claim C7 witness: the invariant and the self-pair no-op at concrete
inputs. -/
theorem claim_C7_witness :
    NoSelfPairs (run vfAccept (KeyCeremonyMediator.init "M" cd2)
      [MediatorOp.receive_backups [ElectionPartialKeyBackup.mk "A" "A" 9]]) ∧
    stAnnounced2.receive_backups [ElectionPartialKeyBackup.mk "A" "A" 9] = stAnnounced2 :=
  ⟨claim_C7.1 "M" cd2 vfAccept _,
    claim_C7.2.1 stAnnounced2 (ElectionPartialKeyBackup.mk "A" "A" 9) rfl⟩

/-- Claim C8: `receive_backups` leaves the entire mediator state unchanged
when `all_guardians_announced` is false, and `receive_backup_verifications`
leaves the entire mediator state unchanged when `all_backups_available` is
false — for every state and every input list, as a silent no-op. -/
theorem claim_C8 :
    (∀ (st : KeyCeremonyMediator) (l : List ElectionPartialKeyBackup),
        st.all_guardians_announced = false → st.receive_backups l = st) ∧
    (∀ (st : KeyCeremonyMediator) (l : List ElectionPartialKeyVerification),
        st.all_backups_available = false → st.receive_backup_verifications l = st) := by
  constructor
  · intro st l h
    rw [KeyCeremonyMediator.receive_backups, if_pos (by simp [h])]
  · intro st l h
    rw [KeyCeremonyMediator.receive_backup_verifications, if_pos (by simp [h])]

/-- Claim C8 witness: before round 1 completes, receive calls are no-ops, at
a concrete fresh mediator. -/
theorem claim_C8_witness :
    (KeyCeremonyMediator.init "M" cd1).receive_backups [bAB] =
        KeyCeremonyMediator.init "M" cd1 ∧
    (KeyCeremonyMediator.init "M" cd1).receive_backup_verifications [vAB] =
        KeyCeremonyMediator.init "M" cd1 :=
  ⟨claim_C8.1 _ _ rfl, claim_C8.2 _ _ rfl⟩

/-- Claim C9: `reset` replaces the ceremony details, clears all five stored
maps and keeps the mediator's id, and the reset mediator is the same state
as a freshly constructed mediator with the same id and details — so every
subsequent operation sequence behaves identically. -/
theorem claim_C9 :
    ∀ (st : KeyCeremonyMediator) (cd : CeremonyDetails),
      st.reset cd = KeyCeremonyMediator.init st.id cd ∧
      (st.reset cd).id = st.id ∧
      (st.reset cd).ceremony_details = cd ∧
      (st.reset cd).auxiliary_public_keys = [] ∧
      (st.reset cd).election_public_keys = [] ∧
      (st.reset cd).election_partial_key_backups = [] ∧
      (st.reset cd).election_partial_key_verifications = [] ∧
      (st.reset cd).election_partial_key_challenges = [] ∧
      ∀ (vf : MEDIATOR_ID → ElectionPartialKeyChallenge → ElectionPartialKeyVerification)
        (ops : List MediatorOp),
        run vf (st.reset cd) ops = run vf (KeyCeremonyMediator.init st.id cd) ops := by
  intro st cd
  exact ⟨rfl, rfl, rfl, rfl, rfl, rfl, rfl, rfl, fun vf ops => rfl⟩

/-- Claim C9 witness: resetting a concrete populated mediator yields the
fresh mediator with the same id. -/
theorem claim_C9_witness :
    stBackups2.reset cd1 = KeyCeremonyMediator.init stBackups2.id cd1 :=
  (claim_C9 stBackups2 cd1).1

/-- Claim C1: the claim says `share_backups(g)` never raises and simply skips
pairs with no stored backup.  The source instead subscripts the backup dict
(`self._election_partial_key_backups[GuardianPair(current, guardian_id)]`),
which raises `KeyError` for an absent pair — the subsequent
`if backup is not None` check is unreachable dead code.  Concretely: with
both guardians of a two-guardian ceremony announced and no backups stored,
`share_backups("B")` raises instead of returning the empty list. -/
theorem claim_C1_bug : stAnnounced2.share_backups (some "B") = Except.error () := by
  rfl

/-- Claim C2: `share_backups` returns `None` exactly when round 1 is
incomplete, for every requester; once all guardians have announced, a call
with no requesting guardian id returns every stored backup flattened and
unfiltered (the backup-availability half of the guard is effectively
disabled, so no backup-completeness condition is required). -/
theorem claim_C2 :
    ∀ (st : KeyCeremonyMediator) (req : Option GUARDIAN_ID),
      (st.share_backups req = Except.ok none ↔ st.all_guardians_announced = false) ∧
      (st.all_guardians_announced = true →
        st.share_backups none =
          Except.ok (some (st.election_partial_key_backups.map Prod.snd))) := by
  intro st req
  cases hA : st.all_guardians_announced with
  | false =>
    constructor
    · simp [KeyCeremonyMediator.share_backups, hA]
    · intro h
      exact absurd h (by simp)
  | true =>
    constructor
    · constructor
      · intro h
        exfalso
        cases req with
        | none => simp [KeyCeremonyMediator.share_backups, hA] at h
        | some g =>
          by_cases hg : g = ""
          · simp [KeyCeremonyMediator.share_backups, hA, hg] at h
          · simp only [KeyCeremonyMediator.share_backups, hA, Bool.not_true,
              Bool.false_eq_true, if_false, if_neg hg] at h
            cases hres : st.share_election_partial_key_backups_to_guardian g with
            | error e => rw [hres] at h; simp at h
            | ok l => rw [hres] at h; simp at h
      · intro h
        exact absurd h (by simp)
    · intro _
      simp [KeyCeremonyMediator.share_backups, hA]

/-- Claim C2 witness: a round-1-complete mediator shares all stored backups
with no requester, and a fresh mediator returns absence. -/
theorem claim_C2_witness :
    stBackups2.share_backups none =
        Except.ok (some (stBackups2.election_partial_key_backups.map Prod.snd)) ∧
    ((KeyCeremonyMediator.init "M" cd1).share_backups none = Except.ok none ↔
      (KeyCeremonyMediator.init "M" cd1).all_guardians_announced = false) :=
  ⟨(claim_C2 stBackups2 none).2 rfl, (claim_C2 (KeyCeremonyMediator.init "M" cd1) none).1⟩

/-- Claim C4: `publish_joint_key` returns `None` unless `all_backups_verified`
is true; when it is true it applies the external combination function to
the stored election public keys in map iteration order.  The operation
reads but never writes the state (in this embedding it is a function of the
state), so repeated calls in the same state recompute the same joint key. -/
theorem claim_C4 :
    ∀ (combine : List ElectionPublicKey → ElectionJointKey) (st : KeyCeremonyMediator),
      (st.all_backups_verified = false → publish_joint_key combine st = none) ∧
      (st.all_backups_verified = true →
        publish_joint_key combine st =
          some (combine (st.election_public_keys.map Prod.snd))) := by
  intro combine st
  constructor
  · intro h
    rw [publish_joint_key, if_pos (by simp [h])]
  · intro h
    rw [publish_joint_key, if_neg (by simp [h])]

/-- Claim C4 witness: the one-guardian ceremony is complete, and publishing
applies the combination function to the stored election keys. -/
theorem claim_C4_witness :
    publish_joint_key (fun l => l.length) stVerified1 =
      some ((fun (l : List ElectionPublicKey) => l.length)
        (stVerified1.election_public_keys.map Prod.snd)) :=
  (claim_C4 (fun l => l.length) stVerified1).2 rfl

/-- Backup from A addressed to C, a guardian that never announced. -/
def bAC : ElectionPartialKeyBackup := ElectionPartialKeyBackup.mk "A" "C" 23

/-- Claim C10: once all guardians have announced, `receive_backups` stores
any non-self backup regardless of whether its ids belong to the announced
set, the stored entry counts toward the exact (N−1)×N threshold, and
receiving one additional non-self backup at an absent pair when
`all_backups_available` is true makes `all_backups_available` false again —
completeness is not monotone. -/
theorem claim_C10 :
    ∀ (st : KeyCeremonyMediator) (b : ElectionPartialKeyBackup),
      st.all_guardians_announced = true →
      b.owner_id ≠ b.designated_id →
      ((st.receive_backups [b]).election_partial_key_backups =
          dictInsert (GuardianPair.mk b.owner_id b.designated_id) b
            st.election_partial_key_backups) ∧
      (dictGet (GuardianPair.mk b.owner_id b.designated_id)
            st.election_partial_key_backups = none →
        (st.receive_backups [b]).election_partial_key_backups.length =
          st.election_partial_key_backups.length + 1) ∧
      (dictGet (GuardianPair.mk b.owner_id b.designated_id)
            st.election_partial_key_backups = none →
        st.all_backups_available = true →
        (st.receive_backups [b]).all_backups_available = false) := by
  intro st b hA hb
  have hstep : st.receive_backups [b] =
      { st with election_partial_key_backups := dictInsert (GuardianPair.mk b.owner_id b.designated_id) b st.election_partial_key_backups } := by
    rw [KeyCeremonyMediator.receive_backups, if_neg (by simp [hA])]
    show st.receive_election_partial_key_backup b = _
    rw [KeyCeremonyMediator.receive_election_partial_key_backup, if_neg hb]
  refine ⟨by rw [hstep], ?_, ?_⟩
  · intro habs
    rw [hstep]
    exact dictInsert_length_of_absent _ _ _ habs
  · intro habs hav
    have hold : st.election_partial_key_backups.length =
        (st.ceremony_details.number_of_guardians - 1) *
          st.ceremony_details.number_of_guardians := by
      rw [KeyCeremonyMediator.all_backups_available, Bool.and_eq_true] at hav
      have h2 := hav.2
      rw [KeyCeremonyMediator.all_election_partial_key_backups_available] at h2
      exact beq_iff_eq.mp h2
    have hnew : (st.receive_backups [b]).all_election_partial_key_backups_available
        = false := by
      rw [KeyCeremonyMediator.all_election_partial_key_backups_available, hstep]
      show ((dictInsert (GuardianPair.mk b.owner_id b.designated_id) b
            st.election_partial_key_backups).length ==
          (st.ceremony_details.number_of_guardians - 1) *
            st.ceremony_details.number_of_guardians) = false
      rw [dictInsert_length_of_absent _ _ _ habs, hold]
      simp
    rw [KeyCeremonyMediator.all_backups_available, hnew, Bool.and_false]

/-- Claim C10 witness: a two-guardian mediator with the complete backup set
receives one more backup addressed to an unannounced guardian C and drops
out of the backups-complete state. -/
theorem claim_C10_witness :
    (stBackups2.receive_backups [bAC]).all_backups_available = false :=
  (claim_C10 stBackups2 bAC rfl (by decide)).2.2 rfl rfl

/-- The failed-verification list is empty exactly when every stored
verification is positive. -/
theorem failed_length_all (l : List ElectionPartialKeyVerification) :
    ((l.filterMap (fun v =>
        if v.verified then none
        else some (GuardianPair.mk v.owner_id v.designated_id))).length == 0) =
      l.all (fun v => v.verified) := by
  induction l with
  | nil => rfl
  | cons v rest ih =>
    by_cases hv : v.verified = true
    · simp only [List.filterMap_cons, hv, if_pos, List.all_cons, Bool.true_and, ih]
    · have hv' : v.verified = false := by simpa using hv
      simp [List.filterMap_cons, hv', List.all_cons]

/-- Claim C5: `get_verification_state` returns the default
`BackupVerificationState` unless `all_backups_available` holds and exactly
(N−1)×N verifications are stored; when both hold it returns
`all_sent = true`, `all_verified` true exactly when no stored verification
has `verified = false`, and `failed_verifications` equal to the pairs of
the failing verifications in storage-iteration order. -/
theorem claim_C5 :
    ∀ st : KeyCeremonyMediator,
      ((st.all_backups_available = false ∨
          st.election_partial_key_verifications.length ≠
            (st.ceremony_details.number_of_guardians - 1) *
              st.ceremony_details.number_of_guardians) →
        st.get_verification_state = BackupVerificationState.initial) ∧
      (st.all_backups_available = true →
        st.election_partial_key_verifications.length =
          (st.ceremony_details.number_of_guardians - 1) *
            st.ceremony_details.number_of_guardians →
        st.get_verification_state = BackupVerificationState.mk true
          ((st.election_partial_key_verifications.map Prod.snd).all
            (fun v => v.verified))
          ((st.election_partial_key_verifications.map Prod.snd).filterMap
            (fun v =>
              if v.verified then none
              else some (GuardianPair.mk v.owner_id v.designated_id)))) := by
  intro st
  constructor
  · intro h
    rcases h with h | h
    · rw [KeyCeremonyMediator.get_verification_state, if_pos (by simp [h])]
    · have hrec : st.all_election_partial_key_verifications_received = false := by
        rw [KeyCeremonyMediator.all_election_partial_key_verifications_received]
        simpa using h
      rw [KeyCeremonyMediator.get_verification_state, if_pos (by simp [hrec])]
  · intro h1 h2
    have hrec : st.all_election_partial_key_verifications_received = true := by
      rw [KeyCeremonyMediator.all_election_partial_key_verifications_received]
      exact beq_iff_eq.mpr h2
    rw [KeyCeremonyMediator.get_verification_state, if_neg (by simp [h1, hrec]),
      KeyCeremonyMediator.check_verification_of_election_partial_key_backups,
      if_neg (by simp [hrec])]
    dsimp only
    rw [failed_length_all]

/-- Claim C5 witness: the two-guardian mediator with full backups and a
complete verification set containing one failure yields
`all_sent = true`, `all_verified = false` and the failed pair (B,A). -/
theorem claim_C5_witness :
    stVerifMixed.get_verification_state = BackupVerificationState.mk true
      ((stVerifMixed.election_partial_key_verifications.map Prod.snd).all
        (fun v => v.verified))
      ((stVerifMixed.election_partial_key_verifications.map Prod.snd).filterMap
        (fun v =>
          if v.verified then none
          else some (GuardianPair.mk v.owner_id v.designated_id))) :=
  (claim_C5 stVerifMixed).2 rfl rfl

/-- A challenge for the failed pair (B,A). -/
def chBA : ElectionPartialKeyChallenge := ElectionPartialKeyChallenge.mk "B" "A" 7

/-- Claim C6 counterexample: a positive verification whose pair is a
self-pair is NOT stored — `verify_challenge` routes it through
`_receive_election_partial_key_verification`, which silently drops
self-pairs — refuting the claim that a positive verification always
overwrites the stored verification for `GuardianPair(owner, designated)`. -/
theorem claim_C6_counterexample :
    (verify_challenge vfAccept (KeyCeremonyMediator.init "M" cd2) chAA).1.verified = true ∧
    dictGet (GuardianPair.mk "A" "A")
        (verify_challenge vfAccept (KeyCeremonyMediator.init "M" cd2)
          chAA).2.election_partial_key_verifications = none := by
  exact ⟨rfl, rfl⟩

/-- Claim C6 (amended): `verify_challenge` always returns the freshly
computed verification; if that verification is negative, or if it is
positive but names a self-pair (`owner_id = designated_id`), the mediator
state is unchanged; if it is positive and not a self-pair it overwrites the
stored verification for `GuardianPair(owner, designated)` and changes
nothing else; in the latter case, if that pair was the only stored failure
among a complete verification set, `all_backups_verified` becomes true and
`publish_joint_key` succeeds. -/
theorem claim_C6 :
    ∀ (vf : MEDIATOR_ID → ElectionPartialKeyChallenge → ElectionPartialKeyVerification)
      (st : KeyCeremonyMediator) (ch : ElectionPartialKeyChallenge),
      (verify_challenge vf st ch).1 = vf st.id ch ∧
      ((vf st.id ch).verified = false → (verify_challenge vf st ch).2 = st) ∧
      ((vf st.id ch).verified = true →
        (vf st.id ch).owner_id = (vf st.id ch).designated_id →
        (verify_challenge vf st ch).2 = st) ∧
      ((vf st.id ch).verified = true →
        (vf st.id ch).owner_id ≠ (vf st.id ch).designated_id →
        (verify_challenge vf st ch).2 =
          { st with election_partial_key_verifications := dictInsert (GuardianPair.mk (vf st.id ch).owner_id (vf st.id ch).designated_id) (vf st.id ch) st.election_partial_key_verifications }) ∧
      ((vf st.id ch).verified = true →
        (vf st.id ch).owner_id ≠ (vf st.id ch).designated_id →
        st.all_backups_available = true →
        st.all_election_partial_key_verifications_received = true →
        (st.election_partial_key_verifications.map Prod.fst).Nodup →
        dictGet (GuardianPair.mk (vf st.id ch).owner_id (vf st.id ch).designated_id)
          st.election_partial_key_verifications ≠ none →
        (∀ p ∈ st.election_partial_key_verifications,
          p.1 ≠ GuardianPair.mk (vf st.id ch).owner_id (vf st.id ch).designated_id →
          p.2.verified = true) →
        ((verify_challenge vf st ch).2.all_backups_verified = true ∧
          ∀ combine : List ElectionPublicKey → ElectionJointKey,
            publish_joint_key combine (verify_challenge vf st ch).2 =
              some (combine (st.election_public_keys.map Prod.snd)))) := by
  intro vf st ch
  cases hv : (vf st.id ch).verified with
  | false =>
    have he : verify_challenge vf st ch = (vf st.id ch, st) := by
      simp [verify_challenge, hv]
    refine ⟨by rw [he], fun _ => by rw [he], ?_, ?_, ?_⟩
    · intro hT; exact absurd hT (by simp)
    · intro hT; exact absurd hT (by simp)
    · intro hT; exact absurd hT (by simp)
  | true =>
    have he : verify_challenge vf st ch =
        (vf st.id ch, st.receive_election_partial_key_verification (vf st.id ch)) := by
      simp [verify_challenge, hv]
    refine ⟨by rw [he], ?_, ?_, ?_, ?_⟩
    · intro hF; exact absurd hF (by simp)
    · intro _ hself
      rw [he]
      show st.receive_election_partial_key_verification (vf st.id ch) = st
      rw [KeyCeremonyMediator.receive_election_partial_key_verification, if_pos hself]
    · intro _ hns
      rw [he]
      show st.receive_election_partial_key_verification (vf st.id ch) = _
      rw [KeyCeremonyMediator.receive_election_partial_key_verification, if_neg hns]
    · intro _ hns hav hrec hnd hpres hall
      have hstate : (verify_challenge vf st ch).2 =
          { st with election_partial_key_verifications := dictInsert (GuardianPair.mk (vf st.id ch).owner_id (vf st.id ch).designated_id) (vf st.id ch) st.election_partial_key_verifications } := by
        rw [he]
        show st.receive_election_partial_key_verification (vf st.id ch) = _
        rw [KeyCeremonyMediator.receive_election_partial_key_verification, if_neg hns]
      have hlen : (dictInsert
            (GuardianPair.mk (vf st.id ch).owner_id (vf st.id ch).designated_id)
            (vf st.id ch) st.election_partial_key_verifications).length =
          st.election_partial_key_verifications.length :=
        dictInsert_length_of_present _ _ _ hpres
      have hall2 : ∀ q ∈ dictInsert
            (GuardianPair.mk (vf st.id ch).owner_id (vf st.id ch).designated_id)
            (vf st.id ch) st.election_partial_key_verifications,
          q.2.verified = true :=
        dictInsert_values_all _ _ (fun x => x.verified = true) _ hnd hv hall
      have hav2 : (verify_challenge vf st ch).2.all_backups_available = true := by
        rw [hstate]; exact hav
      have hrec2 : (verify_challenge vf st ch).2.all_election_partial_key_verifications_received = true := by
        rw [hstate]
        rw [KeyCeremonyMediator.all_election_partial_key_verifications_received]
        show ((dictInsert _ _ st.election_partial_key_verifications).length ==
            (st.ceremony_details.number_of_guardians - 1) *
              st.ceremony_details.number_of_guardians) = true
        rw [hlen]
        exact hrec
      have hfailed : ((verify_challenge vf st ch).2.election_partial_key_verifications.map
            Prod.snd).filterMap
          (fun v =>
            if v.verified then none
            else some (GuardianPair.mk v.owner_id v.designated_id)) = [] := by
        rw [hstate]
        rw [List.filterMap_eq_nil_iff]
        intro x hx
        rcases List.mem_map.mp hx with ⟨q, hq, hqx⟩
        have := hall2 q hq
        rw [← hqx, this]
        simp
      have hverified : (verify_challenge vf st ch).2.all_backups_verified = true := by
        rw [KeyCeremonyMediator.all_backups_verified,
          KeyCeremonyMediator.get_verification_state,
          if_neg (by simp [hav2, hrec2]),
          KeyCeremonyMediator.check_verification_of_election_partial_key_backups,
          if_neg (by simp [hrec2])]
        dsimp only
        rw [hfailed]
        rfl
      refine ⟨hverified, ?_⟩
      intro combine
      rw [publish_joint_key, if_neg (by simp [hverified])]
      rw [hstate]

/-- Claim C6 witness: challenging the failed pair (B,A) with an accepting
verifier upgrades the only failure, making `all_backups_verified` true. -/
theorem claim_C6_witness :
    (verify_challenge vfAccept stVerifMixed chBA).2.all_backups_verified = true :=
  ((claim_C6 vfAccept stVerifMixed chBA).2.2.2.2 rfl (by decide) rfl rfl
    (by decide) (by decide) (by decide)).1

/-- The aliased-requester oracle is an admissible `is not` outcome. -/
theorem isNotAliased_oracle : PyIsNotOracle isNotAliased :=
  ⟨fun _ => rfl, fun a r h => by simp [isNotAliased, bne_iff_ne]; exact h⟩

/-- The fresh-requester oracle is an admissible `is not` outcome. -/
theorem isNotFresh_oracle : PyIsNotOracle isNotFresh :=
  ⟨fun _ => rfl, fun _ _ _ => rfl⟩

/-- The `share_announced` loop succeeds and returns the filtered key sets in
map iteration order when every iterated guardian has an auxiliary key. -/
theorem share_announced_loop_ok (aux : List (GUARDIAN_ID × AuxiliaryPublicKey))
    (req : Option GUARDIAN_ID) (isNot : GUARDIAN_ID → Option GUARDIAN_ID → Bool) :
    ∀ l : List (GUARDIAN_ID × ElectionPublicKey),
      (∀ p ∈ l, (dictGet p.1 aux).isSome = true) →
      share_announced_loop aux req isNot l =
        Except.ok (l.filterMap (fun p =>
          if isNot p.1 req then
            (dictGet p.1 aux).map (fun a => PublicKeySet.mk p.2 a)
          else none)) := by
  intro l
  induction l with
  | nil => intro _; rfl
  | cons p rest ih =>
    intro h
    have hp := h p (List.mem_cons_self _ _)
    have hrest := ih (fun q hq => h q (List.mem_cons_of_mem _ hq))
    rcases Option.isSome_iff_exists.mp hp with ⟨a, ha⟩
    by_cases hin : isNot p.1 req = true
    · simp [share_announced_loop, hin, ha, hrest, List.filterMap_cons]
    · have hin' : isNot p.1 req = false := by simpa using hin
      simp [share_announced_loop, hin', hrest, List.filterMap_cons]

/-- When the `is not` test holds for every iterated entry (as it does
against `None`), the loop keeps every announced guardian, so the returned
key sets' owners are exactly the announced ids, in order. -/
theorem share_announced_loop_owners (aux : List (GUARDIAN_ID × AuxiliaryPublicKey))
    (req : Option GUARDIAN_ID) (isNot : GUARDIAN_ID → Option GUARDIAN_ID → Bool) :
    ∀ l : List (GUARDIAN_ID × ElectionPublicKey),
      (∀ p ∈ l, isNot p.1 req = true) →
      (∀ p ∈ l, p.2.owner_id = p.1) →
      (∀ p ∈ l, (dictGet p.1 aux).isSome = true) →
      (l.filterMap (fun p =>
          if isNot p.1 req then
            (dictGet p.1 aux).map (fun a => PublicKeySet.mk p.2 a)
          else none)).map
        (fun ks => ks.election.owner_id) = l.map Prod.fst := by
  intro l
  induction l with
  | nil => intro _ _ _; rfl
  | cons p rest ih =>
    intro hc hk ha
    rcases Option.isSome_iff_exists.mp (ha p (List.mem_cons_self _ _)) with ⟨a, hga⟩
    have hrest := ih (fun q hq => hc q (List.mem_cons_of_mem _ hq))
      (fun q hq => hk q (List.mem_cons_of_mem _ hq))
      (fun q hq => ha q (List.mem_cons_of_mem _ hq))
    simp [List.filterMap_cons, hc p (List.mem_cons_self _ _), hga, hrest,
      hk p (List.mem_cons_self _ _)]

/-- Claim C3 counterexample: the source filters with
`guardian_id is not requesting_guardian_id` — object identity, not
equality.  Under the admissible execution in which the requester id "A" is
an equal-but-distinct string object (`isNotFresh`), `share_announced "A"`
returns guardian A's own `PublicKeySet` as well, refuting "never includes
guardian g's own PublicKeySet". -/
theorem claim_C3_counterexample :
    PyIsNotOracle isNotFresh ∧
    stAnnounced2.share_announced (some "A") isNotFresh =
      Except.ok (some [PublicKeySet.mk epkA auxA, PublicKeySet.mk epkB auxB]) ∧
    (PublicKeySet.mk epkA auxA).election.owner_id = "A" :=
  ⟨isNotFresh_oracle, rfl, rfl⟩

/-- Claim C3 (amended): once all guardians have announced and each announced
guardian holds both keys, `share_announced g` succeeds for every admissible
`is not` identity oracle and returns, in the iteration (insertion) order of
the election-public-key map, the key sets of the guardians whose stored id
object is not the requester object; every announced guardian with id
different from `g` is always included (distinct values are distinct
objects); `g`'s own key set is excluded exactly in the executions where the
requester id aliases the stored id object (the interned case), and with no
requester every announced guardian is included, in order. -/
theorem claim_C3 :
    ∀ (st : KeyCeremonyMediator) (g : GUARDIAN_ID)
      (isNot : GUARDIAN_ID → Option GUARDIAN_ID → Bool),
      PyIsNotOracle isNot →
      st.all_guardians_announced = true →
      (∀ p ∈ st.election_public_keys, p.2.owner_id = p.1) →
      (∀ p ∈ st.election_public_keys,
        (dictGet p.1 st.auxiliary_public_keys).isSome = true) →
      (∃ l, st.share_announced (some g) isNot = Except.ok (some l) ∧
        l = st.election_public_keys.filterMap (fun p =>
          if isNot p.1 (some g) then
            (dictGet p.1 st.auxiliary_public_keys).map (fun a => PublicKeySet.mk p.2 a)
          else none) ∧
        (∀ p ∈ st.election_public_keys, p.1 ≠ g →
          ∃ ks ∈ l, ks.election.owner_id = p.1) ∧
        (isNot g (some g) = false → ∀ ks ∈ l, ks.election.owner_id ≠ g)) ∧
      (∃ l2, st.share_announced none isNot = Except.ok (some l2) ∧
        l2.map (fun ks => ks.election.owner_id) = st.get_announced_guardians) := by
  intro st g isNot horc hA hkeys haux
  have hloopg := share_announced_loop_ok st.auxiliary_public_keys (some g) isNot
    st.election_public_keys haux
  have hloopn := share_announced_loop_ok st.auxiliary_public_keys none isNot
    st.election_public_keys haux
  constructor
  · refine ⟨_, ?_, rfl, ?_, ?_⟩
    · rw [KeyCeremonyMediator.share_announced, if_neg (by simp [hA]), hloopg]
    · intro p hp hpg
      have hcond : isNot p.1 (some g) = true := horc.2 p.1 g hpg
      rcases Option.isSome_iff_exists.mp (haux p hp) with ⟨a, ha⟩
      refine ⟨PublicKeySet.mk p.2 a, ?_, hkeys p hp⟩
      apply List.mem_filterMap.mpr
      exact ⟨p, hp, by rw [if_pos hcond, ha]; rfl⟩
    · intro halias ks hks
      rcases List.mem_filterMap.mp hks with ⟨p, hp, hpe⟩
      by_cases hin : isNot p.1 (some g) = true
      · rw [if_pos hin] at hpe
        rcases Option.map_eq_some'.mp hpe with ⟨a, _, hae⟩
        rw [← hae]
        show p.2.owner_id ≠ g
        rw [hkeys p hp]
        intro hpg
        rw [hpg, halias] at hin
        exact absurd hin (by simp)
      · rw [if_neg hin] at hpe
        exact absurd hpe (by simp)
  · refine ⟨st.election_public_keys.filterMap (fun p =>
        if isNot p.1 none then
          (dictGet p.1 st.auxiliary_public_keys).map (fun a => PublicKeySet.mk p.2 a)
        else none), ?_, ?_⟩
    · rw [KeyCeremonyMediator.share_announced, if_neg (by simp [hA]), hloopn]
    · exact share_announced_loop_owners st.auxiliary_public_keys none isNot
        st.election_public_keys (fun p _ => horc.1 p.1) hkeys haux

/-- Claim C3 witness: under the aliased (interned) oracle, where
`isNot "A" (some "A") = false`, the two-guardian mediator excludes the
requester's own key set, includes guardian B, and includes everyone with no
requester. -/
theorem claim_C3_witness :
    (∃ l, stAnnounced2.share_announced (some "A") isNotAliased = Except.ok (some l) ∧
      l = stAnnounced2.election_public_keys.filterMap (fun p =>
        if isNotAliased p.1 (some "A") then
          (dictGet p.1 stAnnounced2.auxiliary_public_keys).map
            (fun a => PublicKeySet.mk p.2 a)
        else none) ∧
      (∀ p ∈ stAnnounced2.election_public_keys, p.1 ≠ "A" →
        ∃ ks ∈ l, ks.election.owner_id = p.1) ∧
      (isNotAliased "A" (some "A") = false → ∀ ks ∈ l, ks.election.owner_id ≠ "A")) ∧
    (∃ l2, stAnnounced2.share_announced none isNotAliased = Except.ok (some l2) ∧
      l2.map (fun ks => ks.election.owner_id) = stAnnounced2.get_announced_guardians) :=
  claim_C3 stAnnounced2 "A" isNotAliased isNotAliased_oracle rfl (by decide) (by decide)

end ElectionGuard
